import Mathlib

/-!
Shallow embedding of src/runtime/src/main/cpp/Runtime.cpp — the Kotlin/Native
runtime lifecycle core: the runtime-state machine, the initializer chain, the
lock-protected registry of live runtime instances, per-thread binding, and the
signal-context interrupt dispatcher.

Modelling conventions:
- Heap pointers to RuntimeState become Nat identifiers into a total map
  (heap : Nat → RuntimeState); allocation hands out nextId (fresh ids).
- Thread-local variables (runtimeState, isMainThread) become maps indexed by a
  thread id (konan::currentThread() is passed in as a parameter tid).
- Atomic operations are modelled as atomic steps of a sequential interleaving:
  atomicAdd(&aliveRuntimesCount, d) returns the new value, per its use in
  initRuntime and deinitRuntime ("the increment made the count 1").
- External collaborators (SetKonanTerminateHandler, InitMemory, SuspendMemory,
  ResumeMemory, DeinitMemory, consoleInit, setThreadInterruptHandler,
  onThreadExit, initializer callbacks) are opaque: each call is recorded as an
  event in an append-only event log, so ordering and multiplicity of calls are
  observable. Memory handles are modelled by a fresh-value counter.
- RuntimeCheck(cond, msg) terminates the process on failure: operations that
  may fail a check return Except String Global, with Except.error msg for the
  fatal path (no resulting state: the process is gone).
- konanConstructInstance<RuntimeState>() is declared in Alloc.h, which is not
  part of src/. Modelled from the spec: it zero-initializes the instance, so a
  fresh RuntimeState has all fields zero/null (in particular executionStatus =
  0 = SUSPENDED). Allocation failure is modelled by a boolean oracle allocOk.
-/

/-- Phase tags passed to initializer callbacks, from the anonymous enum. -/
def INIT_GLOBALS : Nat := 0

/-- Phase tag for thread-local initialization. -/
def INIT_THREAD_LOCAL_GLOBALS : Nat := 1

/-- Phase tag for thread-local deinitialization. -/
def DEINIT_THREAD_LOCAL_GLOBALS : Nat := 2

/-- Phase tag for global deinitialization. -/
def DEINIT_GLOBALS : Nat := 3

/-- Execution status SUSPENDED (= 0, the zero default). -/
def SUSPENDED : Nat := 0

/-- Execution status RUNNING. -/
def RUNNING : Nat := 1

/-- Execution status DESTROYING. -/
def DESTROYING : Nat := 2

/-- One runtime instance (struct RuntimeState, fields used by Runtime.cpp).
handler is the optional per-instance interrupt callback, modelled by an opaque
callback identifier; memoryState is the opaque memory-subsystem handle. -/
structure RuntimeState where
  executionStatus : Nat
  threadId : Nat
  handler : Option Nat
  memoryState : Nat
deriving DecidableEq

/-- Modelled from the spec: konanConstructInstance (Alloc.h, not in src/)
zero-initializes the allocated RuntimeState, so a new instance starts with all
fields zero/null; SUSPENDED equals that zero default. -/
def zeroRuntimeState : RuntimeState :=
  { executionStatus := 0, threadId := 0, handler := none, memoryState := 0 }

/-- Observable events: calls to external collaborators, registry and counter
operations, and initializer-callback invocations, in program order. -/
inductive Ev where
  | setKonanTerminateHandler
  | allocState (id : Nat)
  | captureThreadId (id tid : Nat)
  | clearHandler (id : Nat)
  | initMemory (id : Nat)
  | atomicIncAlive (newCount : Int)
  | atomicDecAlive (newCount : Int)
  | lockRuntimes
  | unlockRuntimes
  | insertRegistry (id : Nat)
  | removeRegistry (id : Nat)
  | setThreadInterruptHandler
  | markMainThread (tid : Nat)
  | consoleInit
  | callbackRun (cb : Nat) (phase : Nat)
  | onThreadExitRegistered (tid : Nat)
  | suspendMemory (id : Nat)
  | resumeMemory (id : Nat)
  | deinitMemory (id : Nat)
  | freeState (id : Nat)
  | invokeHandler (h : Nat) (id : Nat)
deriving DecidableEq

/-- The global state of the lifecycle core: the heap of RuntimeState
instances, the initializer chain (callback ids, head first), the atomic
alive-instance counter, the registry spinlock word and intrusive list
(modelled as a list of ids, head = most recently prepended), the per-thread
TLS binding slot and main-thread flag, a fresh-handle counter for the memory
collaborator, and the event log. -/
structure Global where
  heap : Nat → RuntimeState
  nextId : Nat
  initChain : List Nat
  aliveRuntimesCount : Int
  runtimesLock : Nat
  runtimeStateList : List Nat
  tlsRuntimeState : Nat → Option Nat
  tlsIsMainThread : Nat → Bool
  memFresh : Nat
  events : List Ev

/-- The process-start state: empty chain, zero counter, unlocked empty
registry, no thread bound. -/
def initialGlobal : Global :=
  { heap := fun _ => zeroRuntimeState
  , nextId := 0
  , initChain := []
  , aliveRuntimesCount := 0
  , runtimesLock := 0
  , runtimeStateList := []
  , tlsRuntimeState := fun _ => none
  , tlsIsMainThread := fun _ => false
  , memFresh := 0
  , events := [] }

/-- updateStatusIf: compare-and-swap on a state's executionStatus (both the
KONAN_NO_THREADS branch and __sync_bool_compare_and_swap coincide as an atomic
step of the interleaving). Returns whether the swap happened. -/
def updateStatusIf (g : Global) (id : Nat) (oldStatus newStatus : Nat) :
    Bool × Global :=
  if (g.heap id).executionStatus = oldStatus then
    (true,
      { g with heap := fun i =>
          if i = id then { g.heap id with executionStatus := newStatus }
          else g.heap i })
  else
    (false, g)

/-- The while loop of InitOrDeinitGlobalVariables: walk the chain from the
head, invoking each callback with the phase tag. -/
def runChain (chain : List Nat) (phase : Nat) : List Ev :=
  match chain with
  | [] => []
  | cb :: rest => Ev.callbackRun cb phase :: runChain rest phase

/-- InitOrDeinitGlobalVariables(initialize): traverse the whole chain in order
from initHeadNode, invoking every callback with the phase tag. -/
def InitOrDeinitGlobalVariables (g : Global) (phase : Nat) : Global :=
  { g with events := g.events ++ runChain g.initChain phase }

/-- AppendToInitializersTail: append one callback node at the tail of the
chain (the head/tail pointer pair maintains a singly linked list; abstractly,
append at the end). -/
def AppendToInitializersTail (g : Global) (cb : Nat) : Global :=
  { g with initChain := g.initChain ++ [cb] }

/-- The registry-removal loop of deinitRuntime: unlink the first node that is
identical (pointer equality) to the given state; no-op if absent. -/
def removeFirst (id : Nat) : List Nat → List Nat
  | [] => []
  | x :: rest => if x = id then rest else x :: removeFirst id rest

/-- The fallback scan of threadInterruptHandler: walk runtimeStateList,
returning the first state whose threadId equals the interrupted thread's. -/
def findByThreadId (g : Global) (tid : Nat) : List Nat → Option Nat
  | [] => none
  | sid :: rest =>
      if (g.heap sid).threadId = tid then some sid
      else findByThreadId g tid rest

/-- threadInterruptHandler: read the thread's TLS slot; if it is empty and
the registry lock word is non-zero, scan the registry (without taking the
lock) for the first entry created by this thread; if a state was found and
its handler is set, that handler is invoked with the state. Returns the
(handler, state) pair invoked, if any. -/
def threadInterruptHandler (g : Global) (tid : Nat) : Option (Nat × Nat) :=
  let state0 := g.tlsRuntimeState tid
  let state :=
    match state0 with
    | some sid => some sid
    | none =>
        if g.runtimesLock ≠ 0 then findByThreadId g tid g.runtimeStateList
        else none
  match state with
  | some sid =>
      match (g.heap sid).handler with
      | some h => some (h, sid)
      | none => none
  | none => none

/-- threadInterruptHandler as a state transformer: the dispatcher writes no
core state; the only effect is the invocation of the found handler, recorded
in the event log. -/
def threadInterruptHandlerS (g : Global) (tid : Nat) :
    Global × Option (Nat × Nat) :=
  match threadInterruptHandler g tid with
  | some r => ({ g with events := g.events ++ [Ev.invokeHandler r.1 r.2] }, some r)
  | none => (g, none)

/-- initRuntime(): install the terminate handler, allocate (zero-initialized;
nullptr on failure, modelled by the allocOk oracle), set threadId and handler,
call InitMemory, atomically increment the alive count, prepend to the registry
under the spinlock, then, when the increment made the count 1, install the
interrupt dispatcher, mark this thread main, run consoleInit and INIT_GLOBALS;
finally run INIT_THREAD_LOCAL_GLOBALS unconditionally. -/
def initRuntime (g : Global) (tid : Nat) (allocOk : Bool) :
    Option Nat × Global :=
  let g1 := { g with events := g.events ++ [Ev.setKonanTerminateHandler] }
  if allocOk then
    let id := g1.nextId
    let g2 := { g1 with
      nextId := id + 1
      heap := fun i => if i = id then zeroRuntimeState else g1.heap i
      events := g1.events ++ [Ev.allocState id] }
    let g3 := { g2 with
      heap := fun i =>
        if i = id then { g2.heap id with threadId := tid } else g2.heap i
      events := g2.events ++ [Ev.captureThreadId id tid] }
    let g4 := { g3 with
      heap := fun i =>
        if i = id then { g3.heap id with handler := none } else g3.heap i
      events := g3.events ++ [Ev.clearHandler id] }
    let g5 := { g4 with
      heap := fun i =>
        if i = id then { g4.heap id with memoryState := g4.memFresh }
        else g4.heap i
      memFresh := g4.memFresh + 1
      events := g4.events ++ [Ev.initMemory id] }
    let newCount := g5.aliveRuntimesCount + 1
    let firstRuntime := newCount == 1
    let g6 := { g5 with
      aliveRuntimesCount := newCount
      events := g5.events ++ [Ev.atomicIncAlive newCount] }
    let g7 := { g6 with runtimesLock := 1, events := g6.events ++ [Ev.lockRuntimes] }
    let g8 := { g7 with
      runtimeStateList := id :: g7.runtimeStateList
      events := g7.events ++ [Ev.insertRegistry id] }
    let g9 := { g8 with runtimesLock := 0, events := g8.events ++ [Ev.unlockRuntimes] }
    let g10 :=
      if firstRuntime then
        let ga := { g9 with events := g9.events ++ [Ev.setThreadInterruptHandler] }
        let gb := { ga with
          tlsIsMainThread := fun t => if t = tid then true else ga.tlsIsMainThread t
          events := ga.events ++ [Ev.markMainThread tid] }
        let gc := { gb with events := gb.events ++ [Ev.consoleInit] }
        InitOrDeinitGlobalVariables gc INIT_GLOBALS
      else g9
    (some id, InitOrDeinitGlobalVariables g10 INIT_THREAD_LOCAL_GLOBALS)
  else
    (none, g1)

/-- deinitRuntime(state): atomically decrement the alive count, run
DEINIT_THREAD_LOCAL_GLOBALS, run DEINIT_GLOBALS when the decrement brought the
count to 0, unlink the state from the registry under the spinlock, deinit the
memory subsystem and free the state. -/
def deinitRuntime (g : Global) (id : Nat) : Global :=
  let newCount := g.aliveRuntimesCount - 1
  let lastRuntime := newCount == 0
  let g1 := { g with
    aliveRuntimesCount := newCount
    events := g.events ++ [Ev.atomicDecAlive newCount] }
  let g2 := InitOrDeinitGlobalVariables g1 DEINIT_THREAD_LOCAL_GLOBALS
  let g3 := if lastRuntime then InitOrDeinitGlobalVariables g2 DEINIT_GLOBALS else g2
  let g4 := { g3 with runtimesLock := 1, events := g3.events ++ [Ev.lockRuntimes] }
  let g5 := { g4 with
    runtimeStateList := removeFirst id g4.runtimeStateList
    events := g4.events ++ [Ev.removeRegistry id] }
  let g6 := { g5 with runtimesLock := 0, events := g5.events ++ [Ev.unlockRuntimes] }
  { g6 with events := g6.events ++ [Ev.deinitMemory id, Ev.freeState id] }

/-- Kotlin_initRuntimeIfNeeded(): when the calling thread's TLS slot is empty,
create a runtime, bind it, check the SUSPENDED to RUNNING transition (fatal on
failure; a null creation result makes the check dereference null, also fatal),
and register the deinit function for thread exit. When the slot is already
occupied the whole body is skipped. -/
def Kotlin_initRuntimeIfNeeded (g : Global) (tid : Nat) (allocOk : Bool) :
    Except String Global :=
  match g.tlsRuntimeState tid with
  | some _ => Except.ok g
  | none =>
      match initRuntime g tid allocOk with
      | (none, _) => Except.error "null RuntimeState dereferenced in status check"
      | (some id, g1) =>
          let g2 := { g1 with
            tlsRuntimeState := fun t => if t = tid then some id else g1.tlsRuntimeState t }
          let r := updateStatusIf g2 id SUSPENDED RUNNING
          if r.1 then
            Except.ok { r.2 with events := r.2.events ++ [Ev.onThreadExitRegistered tid] }
          else
            Except.error "Cannot transition state to RUNNING for init"

/-- Kotlin_deinitRuntimeIfNeeded(): when the calling thread's TLS slot is
occupied, check the RUNNING to DESTROYING transition (fatal on failure),
deinit the runtime and clear the slot; no-op when the slot is empty. -/
def Kotlin_deinitRuntimeIfNeeded (g : Global) (tid : Nat) :
    Except String Global :=
  match g.tlsRuntimeState tid with
  | none => Except.ok g
  | some id =>
      let r := updateStatusIf g id RUNNING DESTROYING
      if r.1 then
        let g2 := deinitRuntime r.2 id
        Except.ok { g2 with
          tlsRuntimeState := fun t => if t = tid then none else g2.tlsRuntimeState t }
      else
        Except.error "Cannot transition state to DESTROYING"

/-- Kotlin_createRuntime(): createDetached — just initRuntime. -/
def Kotlin_createRuntime (g : Global) (tid : Nat) (allocOk : Bool) :
    Option Nat × Global :=
  initRuntime g tid allocOk

/-- Kotlin_destroyRuntime(state): check the SUSPENDED to DESTROYING
transition (fatal on failure), then deinit. -/
def Kotlin_destroyRuntime (g : Global) (id : Nat) : Except String Global :=
  let r := updateStatusIf g id SUSPENDED DESTROYING
  if r.1 then Except.ok (deinitRuntime r.2 id)
  else Except.error "Cannot transition state to DESTROYING"

/-- Kotlin_suspendRuntime(): fatal when the thread has no bound instance;
check RUNNING to SUSPENDED (fatal on failure), replace the memory handle via
SuspendMemory, clear the TLS slot and return the instance. -/
def Kotlin_suspendRuntime (g : Global) (tid : Nat) :
    Except String (Nat × Global) :=
  match g.tlsRuntimeState tid with
  | none => Except.error "Runtime must be active on the current thread"
  | some id =>
      let r := updateStatusIf g id RUNNING SUSPENDED
      if r.1 then
        let g1 := r.2
        let g2 := { g1 with
          heap := fun i =>
            if i = id then { g1.heap id with memoryState := g1.memFresh }
            else g1.heap i
          memFresh := g1.memFresh + 1
          events := g1.events ++ [Ev.suspendMemory id] }
        Except.ok (id, { g2 with
          tlsRuntimeState := fun t => if t = tid then none else g2.tlsRuntimeState t })
      else
        Except.error "Cannot transition state to SUSPENDED for suspend"

/-- Kotlin_resumeRuntime(state): fatal when the thread already has a bound
instance; check SUSPENDED to RUNNING (fatal on failure), bind the instance to
the thread and call ResumeMemory on the stored handle. -/
def Kotlin_resumeRuntime (g : Global) (tid : Nat) (id : Nat) :
    Except String Global :=
  match g.tlsRuntimeState tid with
  | some _ => Except.error "Runtime must not be active on the current thread"
  | none =>
      let r := updateStatusIf g id SUSPENDED RUNNING
      if r.1 then
        let g1 := { r.2 with
          tlsRuntimeState := fun t => if t = tid then some id else r.2.tlsRuntimeState t }
        Except.ok { g1 with events := g1.events ++ [Ev.resumeMemory id] }
      else
        Except.error "Cannot transition state to RUNNING for resume"

/-- Kotlin_suspendRuntime immediately followed by Kotlin_resumeRuntime on the
returned handle, on the same thread. -/
def suspendThenResume (g : Global) (tid : Nat) :
    Except String (Nat × Global) :=
  match Kotlin_suspendRuntime g tid with
  | Except.error e => Except.error e
  | Except.ok (id, g1) =>
      match Kotlin_resumeRuntime g1 tid id with
      | Except.error e => Except.error e
      | Except.ok g2 => Except.ok (id, g2)

/-- One operation of the lifecycle core, as invoked by embedders or compiled
code: attach (create-if-needed), implicit detach, detached create, explicit
destroy, suspend, resume. -/
inductive CoreOp where
  | initIfNeeded (tid : Nat) (allocOk : Bool)
  | deinitIfNeeded (tid : Nat)
  | create (tid : Nat) (allocOk : Bool)
  | destroy (target : Nat)
  | suspendOp (tid : Nat)
  | resumeOp (tid : Nat) (target : Nat)

/-- Run one core operation; Except.error is the fatal (process-terminating)
outcome. -/
def runOp (g : Global) : CoreOp → Except String Global
  | CoreOp.initIfNeeded tid allocOk => Kotlin_initRuntimeIfNeeded g tid allocOk
  | CoreOp.deinitIfNeeded tid => Kotlin_deinitRuntimeIfNeeded g tid
  | CoreOp.create tid allocOk => Except.ok (Kotlin_createRuntime g tid allocOk).2
  | CoreOp.destroy target => Kotlin_destroyRuntime g target
  | CoreOp.suspendOp tid => (Kotlin_suspendRuntime g tid).map Prod.snd
  | CoreOp.resumeOp tid target => Kotlin_resumeRuntime g tid target

/-- One counter-relevant lifecycle step of an interleaved run: a successful
detached creation on some thread, or a destruction of some instance. Each
step's atomic counter update is one point of the interleaving. -/
inductive RtOp where
  | create (tid : Nat)
  | destroy (id : Nat)
deriving DecidableEq

/-- Run an interleaved sequence of creations and destructions (each modelled
at the granularity of its atomic counter transition). -/
def runTrace (g : Global) : List RtOp → Global
  | [] => g
  | RtOp.create tid :: rest => runTrace (initRuntime g tid true).2 rest
  | RtOp.destroy id :: rest => runTrace (deinitRuntime g id) rest

/-- Claim-side: the alive-count delta of one step. -/
def opDelta : RtOp → Int
  | RtOp.create _ => 1
  | RtOp.destroy _ => -1

/-- Claim-side: whether a step is a creation. -/
def isCreateOp : RtOp → Bool
  | RtOp.create _ => true
  | RtOp.destroy _ => false

/-- Claim-side: whether position i of the run is a creation. -/
def createAtB : List RtOp → Nat → Bool
  | [], _ => false
  | op :: _, 0 => isCreateOp op
  | _ :: rest, i + 1 => createAtB rest i

/-- Claim-side: whether position i of the run is a destruction. -/
def destroyAtB : List RtOp → Nat → Bool
  | [], _ => false
  | op :: _, 0 => !isCreateOp op
  | _ :: rest, i + 1 => destroyAtB rest i

/-- Claim-side: the alive count after the first i steps of the run, starting
from count c. -/
def prefAlive (c : Int) : List RtOp → Nat → Int
  | _, 0 => c
  | [], _ + 1 => c
  | op :: rest, i + 1 => prefAlive (c + opDelta op) rest i

/-- Claim-side: the number of creations whose increment brings the alive
count from 0 to 1 (positions i that are creations with count 0 before them). -/
def zeroToOneCount (c : Int) (ops : List RtOp) : Nat :=
  (List.range ops.length).countP
    (fun i => createAtB ops i && (prefAlive c ops i == 0))

/-- Claim-side: the number of destructions whose decrement brings the alive
count from 1 to 0. -/
def oneToZeroCount (c : Int) (ops : List RtOp) : Nat :=
  (List.range ops.length).countP
    (fun i => destroyAtB ops i && (prefAlive c ops i == 1))

/-- Whether an event is the invocation of callback cb with phase tag p. -/
def isFire (cb p : Nat) : Ev → Bool
  | Ev.callbackRun c q => c == cb && q == p
  | _ => false

/-- How many times callback cb fired with phase tag p in an event log. -/
def phaseFireCount (evs : List Ev) (cb p : Nat) : Nat :=
  evs.countP (isFire cb p)

/-- The exact order of observable steps of a successful initRuntime call:
terminate-handler install, allocation, threadId capture, handler clear,
InitMemory, atomic increment, then registry insertion under the spinlock,
then (only when the increment made the count 1) dispatcher install,
main-thread marking, consoleInit and the INIT_GLOBALS traversal, and finally
the unconditional INIT_THREAD_LOCAL_GLOBALS traversal. -/
def initEvList (g : Global) (tid : Nat) : List Ev :=
  [Ev.setKonanTerminateHandler, Ev.allocState g.nextId,
   Ev.captureThreadId g.nextId tid, Ev.clearHandler g.nextId,
   Ev.initMemory g.nextId, Ev.atomicIncAlive (g.aliveRuntimesCount + 1),
   Ev.lockRuntimes, Ev.insertRegistry g.nextId, Ev.unlockRuntimes]
  ++ (if g.aliveRuntimesCount + 1 == 1 then
        [Ev.setThreadInterruptHandler, Ev.markMainThread tid, Ev.consoleInit]
        ++ g.initChain.map (fun cb => Ev.callbackRun cb INIT_GLOBALS)
      else [])
  ++ g.initChain.map (fun cb => Ev.callbackRun cb INIT_THREAD_LOCAL_GLOBALS)

/-- The exact order of observable steps of a deinitRuntime call: atomic
decrement, DEINIT_THREAD_LOCAL_GLOBALS traversal, (only when the decrement
brought the count to 0) DEINIT_GLOBALS traversal, registry removal under the
spinlock, DeinitMemory, free. -/
def deinitEvList (g : Global) (id : Nat) : List Ev :=
  [Ev.atomicDecAlive (g.aliveRuntimesCount - 1)]
  ++ g.initChain.map (fun cb => Ev.callbackRun cb DEINIT_THREAD_LOCAL_GLOBALS)
  ++ (if g.aliveRuntimesCount - 1 == 0 then
        g.initChain.map (fun cb => Ev.callbackRun cb DEINIT_GLOBALS)
      else [])
  ++ [Ev.lockRuntimes, Ev.removeRegistry id, Ev.unlockRuntimes,
      Ev.deinitMemory id, Ev.freeState id]

/-- Register a list of callbacks, in order, via AppendToInitializersTail. -/
def registerAll (g : Global) (cbs : List Nat) : Global :=
  cbs.foldl AppendToInitializersTail g

/-- Extract the success state of a fallible operation (default otherwise). -/
def okOr (e : Except String Global) (d : Global) : Global :=
  match e with
  | Except.ok g => g
  | Except.error _ => d

/-- A process-start state with one registered initializer callback (id 9). -/
def gChain : Global :=
  { initialGlobal with initChain := [9] }

/-- A thread (id 0) that has attached via Kotlin_initRuntimeIfNeeded from the
process-start state: its TLS slot holds instance 0, which is RUNNING. -/
def gAttached : Global :=
  okOr (Kotlin_initRuntimeIfNeeded initialGlobal 0 true) initialGlobal

/-- A state in which the registry holds one instance (id 0, created by thread
7, with an interrupt handler set), thread 7's TLS slot is empty, and the
registry spinlock word is 0 (nobody holds the lock). -/
def gLockFree : Global :=
  { initialGlobal with
      nextId := 1
      runtimeStateList := [0]
      heap := fun i =>
        if i = 0 then
          { executionStatus := RUNNING, threadId := 7, handler := some 5,
            memoryState := 0 }
        else zeroRuntimeState }

/-- gLockFree, but with the registry spinlock word non-zero (held). -/
def gLockHeld : Global :=
  { gLockFree with runtimesLock := 1 }

/-- A state holding one already-DESTROYING instance (id 0). -/
def gDestroyed : Global :=
  { initialGlobal with
      nextId := 1
      heap := fun i =>
        if i = 0 then { zeroRuntimeState with executionStatus := DESTROYING }
        else zeroRuntimeState }

/-- The state after running a detached creation on thread 5 from gDestroyed. -/
def gDestroyedAfter : Global :=
  okOr (runOp gDestroyed (CoreOp.create 5 true)) gDestroyed

/-- The suspend/resume round-trip observation: the returned handle, the TLS
slot afterwards, and the handle's status afterwards. -/
def roundTripView (g : Global) (tid : Nat) :
    Except String (Nat × Option Nat × Nat) :=
  (suspendThenResume g tid).map
    (fun r => (r.1, r.2.tlsRuntimeState tid, (r.2.heap r.1).executionStatus))

lemma runChain_eq_map (chain : List Nat) (p : Nat) :
    runChain chain p = chain.map (fun cb => Ev.callbackRun cb p) := by
  induction chain with
  | nil => rfl
  | cons c rest ih => simp [runChain, ih]

lemma registerAll_initChain (cbs : List Nat) (g : Global) :
    (registerAll g cbs).initChain = g.initChain ++ cbs := by
  induction cbs generalizing g with
  | nil => simp [registerAll]
  | cons c rest ih =>
      show (registerAll (AppendToInitializersTail g c) rest).initChain = _
      rw [ih]
      simp [AppendToInitializersTail]

lemma registerAll_events (cbs : List Nat) (g : Global) :
    (registerAll g cbs).events = g.events := by
  induction cbs generalizing g with
  | nil => rfl
  | cons c rest ih =>
      show (registerAll (AppendToInitializersTail g c) rest).events = _
      rw [ih]
      rfl

lemma initRuntime_events (g : Global) (tid : Nat) :
    ((initRuntime g tid true).2).events = g.events ++ initEvList g tid := by
  unfold initRuntime initEvList InitOrDeinitGlobalVariables
  by_cases h : ((g.aliveRuntimesCount + 1 : Int) == 1) = true <;>
    simp [h, runChain_eq_map]

lemma initRuntime_initChain (g : Global) (tid : Nat) :
    ((initRuntime g tid true).2).initChain = g.initChain := by
  unfold initRuntime InitOrDeinitGlobalVariables
  by_cases h : ((g.aliveRuntimesCount + 1 : Int) == 1) = true <;> simp [h]

lemma initRuntime_alive (g : Global) (tid : Nat) :
    ((initRuntime g tid true).2).aliveRuntimesCount
      = g.aliveRuntimesCount + 1 := by
  unfold initRuntime InitOrDeinitGlobalVariables
  by_cases h : ((g.aliveRuntimesCount + 1 : Int) == 1) = true <;> simp [h]

lemma initRuntime_fst (g : Global) (tid : Nat) :
    (initRuntime g tid true).1 = some g.nextId := by
  unfold initRuntime
  by_cases h : ((g.aliveRuntimesCount + 1 : Int) == 1) = true <;> simp [h]

lemma initRuntime_heap_other (g : Global) (tid : Nat) (allocOk : Bool)
    (i : Nat) (hi : i ≠ g.nextId) :
    ((initRuntime g tid allocOk).2).heap i = g.heap i := by
  unfold initRuntime InitOrDeinitGlobalVariables
  cases allocOk with
  | false => simp
  | true =>
      by_cases h : ((g.aliveRuntimesCount + 1 : Int) == 1) = true <;>
        simp [h, hi]

lemma deinitRuntime_events (g : Global) (id : Nat) :
    (deinitRuntime g id).events = g.events ++ deinitEvList g id := by
  unfold deinitRuntime deinitEvList InitOrDeinitGlobalVariables
  by_cases h : ((g.aliveRuntimesCount - 1 : Int) == 0) = true <;>
    simp [h, runChain_eq_map]

lemma deinitRuntime_initChain (g : Global) (id : Nat) :
    (deinitRuntime g id).initChain = g.initChain := by
  unfold deinitRuntime InitOrDeinitGlobalVariables
  by_cases h : ((g.aliveRuntimesCount - 1 : Int) == 0) = true <;> simp [h]

lemma deinitRuntime_alive (g : Global) (id : Nat) :
    (deinitRuntime g id).aliveRuntimesCount = g.aliveRuntimesCount - 1 := by
  unfold deinitRuntime InitOrDeinitGlobalVariables
  by_cases h : ((g.aliveRuntimesCount - 1 : Int) == 0) = true <;> simp [h]

lemma deinitRuntime_heap (g : Global) (id : Nat) :
    (deinitRuntime g id).heap = g.heap := by
  unfold deinitRuntime InitOrDeinitGlobalVariables
  by_cases h : ((g.aliveRuntimesCount - 1 : Int) == 0) = true <;> simp [h]

lemma updateStatusIf_heap_other (g : Global) (id oldStatus newStatus : Nat)
    (j : Nat) (hj : j ≠ id) :
    ((updateStatusIf g id oldStatus newStatus).2).heap j = g.heap j := by
  unfold updateStatusIf
  by_cases h : (g.heap id).executionStatus = oldStatus <;> simp [h, hj]

lemma updateStatusIf_fst (g : Global) (id oldStatus newStatus : Nat) :
    (updateStatusIf g id oldStatus newStatus).1
      = decide ((g.heap id).executionStatus = oldStatus) := by
  unfold updateStatusIf
  by_cases h : (g.heap id).executionStatus = oldStatus <;> simp [h]

lemma findByThreadId_eq_find (g : Global) (tid : Nat) (l : List Nat) :
    findByThreadId g tid l
      = l.find? (fun sid => (g.heap sid).threadId == tid) := by
  induction l with
  | nil => rfl
  | cons x rest ih =>
      unfold findByThreadId
      rw [List.find?_cons]
      by_cases h : (g.heap x).threadId = tid
      · simp [h]
      · have hb : ((g.heap x).threadId == tid) = false := by
          simp [h]
        simp [h, hb, ih]

lemma phaseFireCount_append (l1 l2 : List Ev) (cb p : Nat) :
    phaseFireCount (l1 ++ l2) cb p
      = phaseFireCount l1 cb p + phaseFireCount l2 cb p := by
  simp [phaseFireCount]

lemma countFires_initEvList (g : Global) (tid cb : Nat)
    (hchain : g.initChain = [cb]) :
    phaseFireCount (initEvList g tid) cb INIT_GLOBALS
        = (if g.aliveRuntimesCount = 0 then 1 else 0) ∧
    phaseFireCount (initEvList g tid) cb INIT_THREAD_LOCAL_GLOBALS = 1 ∧
    phaseFireCount (initEvList g tid) cb DEINIT_THREAD_LOCAL_GLOBALS = 0 ∧
    phaseFireCount (initEvList g tid) cb DEINIT_GLOBALS = 0 := by
  have hb : ((g.aliveRuntimesCount + 1 : Int) == 1)
      = decide (g.aliveRuntimesCount = 0) := by
    by_cases hc : g.aliveRuntimesCount = 0
    · simp [hc]
    · have h1 : ¬ ((g.aliveRuntimesCount + 1 : Int) = 1) := by omega
      simp [hc, h1]
  unfold initEvList phaseFireCount
  rw [hchain, hb]
  by_cases hc : g.aliveRuntimesCount = 0 <;>
    simp [hc, isFire, INIT_GLOBALS, INIT_THREAD_LOCAL_GLOBALS,
      DEINIT_THREAD_LOCAL_GLOBALS, DEINIT_GLOBALS]

lemma countFires_deinitEvList (g : Global) (id cb : Nat)
    (hchain : g.initChain = [cb]) :
    phaseFireCount (deinitEvList g id) cb INIT_GLOBALS = 0 ∧
    phaseFireCount (deinitEvList g id) cb INIT_THREAD_LOCAL_GLOBALS = 0 ∧
    phaseFireCount (deinitEvList g id) cb DEINIT_THREAD_LOCAL_GLOBALS = 1 ∧
    phaseFireCount (deinitEvList g id) cb DEINIT_GLOBALS
        = (if g.aliveRuntimesCount = 1 then 1 else 0) := by
  have hb : ((g.aliveRuntimesCount - 1 : Int) == 0)
      = decide (g.aliveRuntimesCount = 1) := by
    by_cases hc : g.aliveRuntimesCount = 1
    · simp [hc]
    · have h1 : ¬ ((g.aliveRuntimesCount - 1 : Int) = 0) := by omega
      simp [hc, h1]
  unfold deinitEvList phaseFireCount
  rw [hchain, hb]
  by_cases hc : g.aliveRuntimesCount = 1 <;>
    simp [hc, isFire, INIT_GLOBALS, INIT_THREAD_LOCAL_GLOBALS,
      DEINIT_THREAD_LOCAL_GLOBALS, DEINIT_GLOBALS]

lemma zeroToOneCount_nil (c : Int) : zeroToOneCount c [] = 0 := rfl

lemma oneToZeroCount_nil (c : Int) : oneToZeroCount c [] = 0 := rfl

lemma zeroToOneCount_cons (c : Int) (op : RtOp) (rest : List RtOp) :
    zeroToOneCount c (op :: rest)
      = (if isCreateOp op && (c == 0) then 1 else 0)
        + zeroToOneCount (c + opDelta op) rest := by
  unfold zeroToOneCount
  rw [List.length_cons, List.range_succ_eq_map, List.countP_cons,
    List.countP_map]
  have hp : ((fun i => createAtB (op :: rest) i
        && (prefAlive c (op :: rest) i == 0)) ∘ Nat.succ)
      = (fun i => createAtB rest i
        && (prefAlive (c + opDelta op) rest i == 0)) := by
    funext i
    simp [Function.comp, createAtB, prefAlive]
  rw [hp]
  simp only [createAtB, prefAlive]
  omega

lemma oneToZeroCount_cons (c : Int) (op : RtOp) (rest : List RtOp) :
    oneToZeroCount c (op :: rest)
      = (if !isCreateOp op && (c == 1) then 1 else 0)
        + oneToZeroCount (c + opDelta op) rest := by
  unfold oneToZeroCount
  rw [List.length_cons, List.range_succ_eq_map, List.countP_cons,
    List.countP_map]
  have hp : ((fun i => destroyAtB (op :: rest) i
        && (prefAlive c (op :: rest) i == 1)) ∘ Nat.succ)
      = (fun i => destroyAtB rest i
        && (prefAlive (c + opDelta op) rest i == 1)) := by
    funext i
    simp [Function.comp, destroyAtB, prefAlive]
  rw [hp]
  simp only [destroyAtB, prefAlive]
  omega

lemma runTrace_counts (ops : List RtOp) :
    ∀ (g : Global) (cb : Nat), g.initChain = [cb] →
      phaseFireCount (runTrace g ops).events cb INIT_GLOBALS
          = phaseFireCount g.events cb INIT_GLOBALS
            + zeroToOneCount g.aliveRuntimesCount ops ∧
      phaseFireCount (runTrace g ops).events cb DEINIT_GLOBALS
          = phaseFireCount g.events cb DEINIT_GLOBALS
            + oneToZeroCount g.aliveRuntimesCount ops ∧
      phaseFireCount (runTrace g ops).events cb INIT_THREAD_LOCAL_GLOBALS
          = phaseFireCount g.events cb INIT_THREAD_LOCAL_GLOBALS
            + ops.countP isCreateOp ∧
      phaseFireCount (runTrace g ops).events cb DEINIT_THREAD_LOCAL_GLOBALS
          = phaseFireCount g.events cb DEINIT_THREAD_LOCAL_GLOBALS
            + ops.countP (fun op => !isCreateOp op) := by
  induction ops with
  | nil =>
      intro g cb hchain
      simp [runTrace, zeroToOneCount_nil, oneToZeroCount_nil]
  | cons op rest ih =>
      intro g cb hchain
      cases op with
      | create tid =>
          have hchain1 : ((initRuntime g tid true).2).initChain = [cb] := by
            rw [initRuntime_initChain, hchain]
          obtain ⟨hc0, hc1, hc2, hc3⟩ := countFires_initEvList g tid cb hchain
          obtain ⟨hr0, hr1, hr2, hr3⟩ := ih ((initRuntime g tid true).2) cb hchain1
          have hsh : runTrace g (RtOp.create tid :: rest)
              = runTrace ((initRuntime g tid true).2) rest := rfl
          have hev0 : phaseFireCount ((initRuntime g tid true).2).events cb INIT_GLOBALS
                = phaseFireCount g.events cb INIT_GLOBALS
                  + (if g.aliveRuntimesCount = 0 then 1 else 0) := by
            simp [initRuntime_events, phaseFireCount_append, hc0]
          have hev1 : phaseFireCount ((initRuntime g tid true).2).events cb DEINIT_GLOBALS
                = phaseFireCount g.events cb DEINIT_GLOBALS := by
            simp [initRuntime_events, phaseFireCount_append, hc3]
          have hev2 : phaseFireCount ((initRuntime g tid true).2).events cb INIT_THREAD_LOCAL_GLOBALS
                = phaseFireCount g.events cb INIT_THREAD_LOCAL_GLOBALS + 1 := by
            simp [initRuntime_events, phaseFireCount_append, hc1]
          have hev3 : phaseFireCount ((initRuntime g tid true).2).events cb DEINIT_THREAD_LOCAL_GLOBALS
                = phaseFireCount g.events cb DEINIT_THREAD_LOCAL_GLOBALS := by
            simp [initRuntime_events, phaseFireCount_append, hc2]
          have halive := initRuntime_alive g tid
          have hdelta : g.aliveRuntimesCount + opDelta (RtOp.create tid)
              = g.aliveRuntimesCount + 1 := by
            simp only [opDelta]
          have hz2o : zeroToOneCount g.aliveRuntimesCount (RtOp.create tid :: rest)
              = (if g.aliveRuntimesCount = 0 then 1 else 0)
                + zeroToOneCount (g.aliveRuntimesCount + 1) rest := by
            rw [zeroToOneCount_cons, hdelta]
            simp [isCreateOp]
          have h1to0 : oneToZeroCount g.aliveRuntimesCount (RtOp.create tid :: rest)
              = oneToZeroCount (g.aliveRuntimesCount + 1) rest := by
            rw [oneToZeroCount_cons, hdelta]
            simp [isCreateOp]
          have hcpc : List.countP isCreateOp (RtOp.create tid :: rest)
              = List.countP isCreateOp rest + 1 := by
            simp [List.countP_cons, isCreateOp]
          have hcpd : List.countP (fun op => !isCreateOp op) (RtOp.create tid :: rest)
              = List.countP (fun op => !isCreateOp op) rest := by
            simp [List.countP_cons, isCreateOp]
          refine ⟨?_, ?_, ?_, ?_⟩
          · rw [hsh, hr0, hev0, halive, hz2o]
            omega
          · rw [hsh, hr1, hev1, halive, h1to0]
          · rw [hsh, hr2, hev2, hcpc]
            omega
          · rw [hsh, hr3, hev3, hcpd]
      | destroy did =>
          have hchain1 : (deinitRuntime g did).initChain = [cb] := by
            rw [deinitRuntime_initChain, hchain]
          obtain ⟨hc0, hc1, hc2, hc3⟩ := countFires_deinitEvList g did cb hchain
          obtain ⟨hr0, hr1, hr2, hr3⟩ := ih (deinitRuntime g did) cb hchain1
          have hsh : runTrace g (RtOp.destroy did :: rest)
              = runTrace (deinitRuntime g did) rest := rfl
          have hev0 : phaseFireCount (deinitRuntime g did).events cb INIT_GLOBALS
                = phaseFireCount g.events cb INIT_GLOBALS := by
            simp [deinitRuntime_events, phaseFireCount_append, hc0]
          have hev1 : phaseFireCount (deinitRuntime g did).events cb DEINIT_GLOBALS
                = phaseFireCount g.events cb DEINIT_GLOBALS
                  + (if g.aliveRuntimesCount = 1 then 1 else 0) := by
            simp [deinitRuntime_events, phaseFireCount_append, hc3]
          have hev2 : phaseFireCount (deinitRuntime g did).events cb INIT_THREAD_LOCAL_GLOBALS
                = phaseFireCount g.events cb INIT_THREAD_LOCAL_GLOBALS := by
            simp [deinitRuntime_events, phaseFireCount_append, hc1]
          have hev3 : phaseFireCount (deinitRuntime g did).events cb DEINIT_THREAD_LOCAL_GLOBALS
                = phaseFireCount g.events cb DEINIT_THREAD_LOCAL_GLOBALS + 1 := by
            simp [deinitRuntime_events, phaseFireCount_append, hc2]
          have halive := deinitRuntime_alive g did
          have hdelta : g.aliveRuntimesCount + opDelta (RtOp.destroy did)
              = g.aliveRuntimesCount - 1 := by
            simp only [opDelta]
            omega
          have hz2o : zeroToOneCount g.aliveRuntimesCount (RtOp.destroy did :: rest)
              = zeroToOneCount (g.aliveRuntimesCount - 1) rest := by
            rw [zeroToOneCount_cons, hdelta]
            simp [isCreateOp]
          have h1to0 : oneToZeroCount g.aliveRuntimesCount (RtOp.destroy did :: rest)
              = (if g.aliveRuntimesCount = 1 then 1 else 0)
                + oneToZeroCount (g.aliveRuntimesCount - 1) rest := by
            rw [oneToZeroCount_cons, hdelta]
            simp [isCreateOp]
          have hcpc : List.countP isCreateOp (RtOp.destroy did :: rest)
              = List.countP isCreateOp rest := by
            simp [List.countP_cons, isCreateOp]
          have hcpd : List.countP (fun op => !isCreateOp op) (RtOp.destroy did :: rest)
              = List.countP (fun op => !isCreateOp op) rest + 1 := by
            simp [List.countP_cons, isCreateOp]
          refine ⟨?_, ?_, ?_, ?_⟩
          · rw [hsh, hr0, hev0, halive, hz2o]
          · rw [hsh, hr1, hev1, halive, h1to0]
            omega
          · rw [hsh, hr2, hev2, hcpc]
          · rw [hsh, hr3, hev3, hcpd]
            omega

/-- C6: for every chain of callbacks registered in order before any instance
exists, each of the four phase traversals fires the callbacks exactly once
each, in registration order; in particular the deinit phases traverse the
chain in the same order as the init phases (the traversal event list is the
same registration-ordered map for every phase tag). -/
theorem C6_chain_registration_order (g : Global) (cbs : List Nat) (p : Nat)
    (hchain : g.initChain = []) :
    (registerAll g cbs).initChain = cbs ∧
    (InitOrDeinitGlobalVariables (registerAll g cbs) p).events
      = (registerAll g cbs).events
        ++ cbs.map (fun cb => Ev.callbackRun cb p) := by
  have h1 : (registerAll g cbs).initChain = cbs := by
    rw [registerAll_initChain, hchain]
    simp
  refine ⟨h1, ?_⟩
  simp [InitOrDeinitGlobalVariables, h1, runChain_eq_map]

/-- C6 witness: registering callbacks 3 and 4 from the process-start state
and running the DEINIT_GLOBALS traversal fires 3 then 4, in registration
order. -/
theorem C6_chain_witness :
    (registerAll initialGlobal [3, 4]).initChain = [3, 4] ∧
    (InitOrDeinitGlobalVariables (registerAll initialGlobal [3, 4])
        DEINIT_GLOBALS).events
      = (registerAll initialGlobal [3, 4]).events
        ++ [3, 4].map (fun cb => Ev.callbackRun cb DEINIT_GLOBALS) :=
  C6_chain_registration_order initialGlobal [3, 4] DEINIT_GLOBALS rfl

/-- C7: when allocation of the RuntimeState fails, createDetached
(Kotlin_createRuntime) returns a null result rather than terminating, and
the alive-instance count, the registry contents, the initializer chain (and
also the heap and every TLS slot) are exactly as before. -/
theorem C7_alloc_failure_no_effect (g : Global) (tid : Nat) :
    (Kotlin_createRuntime g tid false).1 = none ∧
    (Kotlin_createRuntime g tid false).2.aliveRuntimesCount
        = g.aliveRuntimesCount ∧
    (Kotlin_createRuntime g tid false).2.runtimeStateList
        = g.runtimeStateList ∧
    (Kotlin_createRuntime g tid false).2.initChain = g.initChain ∧
    (Kotlin_createRuntime g tid false).2.heap = g.heap ∧
    (Kotlin_createRuntime g tid false).2.tlsRuntimeState
        = g.tlsRuntimeState := by
  exact ⟨rfl, rfl, rfl, rfl, rfl, rfl⟩

/-- C9: a successful creation returns an instance whose status is SUSPENDED:
the creation path never assigns the status, which therefore keeps the
zero-initialized default, and SUSPENDED is that zero value. -/
theorem C9_created_suspended (g : Global) (tid : Nat) :
    (Kotlin_createRuntime g tid true).1 = some g.nextId ∧
    ((Kotlin_createRuntime g tid true).2.heap g.nextId).executionStatus
        = SUSPENDED ∧
    SUSPENDED = zeroRuntimeState.executionStatus := by
  refine ⟨initRuntime_fst g tid, ?_, rfl⟩
  show ((initRuntime g tid true).2.heap g.nextId).executionStatus = SUSPENDED
  unfold initRuntime InitOrDeinitGlobalVariables
  by_cases h : ((g.aliveRuntimesCount + 1 : Int) == 1) = true <;>
    simp [h, zeroRuntimeState, SUSPENDED]

/-- C10: an invocation of the interrupt dispatcher mutates no state of the
core: heap (all RuntimeState fields), allocation counter, initializer chain,
alive count, lock word, registry list, every TLS binding slot and main flag,
and the memory-handle counter are unchanged; its only effect is the
invocation of the found instance's stored handler, if any. -/
theorem C10_dispatcher_frame (g : Global) (tid : Nat) :
    (threadInterruptHandlerS g tid).1.heap = g.heap ∧
    (threadInterruptHandlerS g tid).1.nextId = g.nextId ∧
    (threadInterruptHandlerS g tid).1.initChain = g.initChain ∧
    (threadInterruptHandlerS g tid).1.aliveRuntimesCount
        = g.aliveRuntimesCount ∧
    (threadInterruptHandlerS g tid).1.runtimesLock = g.runtimesLock ∧
    (threadInterruptHandlerS g tid).1.runtimeStateList
        = g.runtimeStateList ∧
    (threadInterruptHandlerS g tid).1.tlsRuntimeState
        = g.tlsRuntimeState ∧
    (threadInterruptHandlerS g tid).1.tlsIsMainThread
        = g.tlsIsMainThread ∧
    (threadInterruptHandlerS g tid).1.memFresh = g.memFresh ∧
    (threadInterruptHandlerS g tid).2 = threadInterruptHandler g tid ∧
    (threadInterruptHandlerS g tid).1.events
      = g.events
        ++ (match threadInterruptHandler g tid with
            | some r => [Ev.invokeHandler r.1 r.2]
            | none => []) := by
  unfold threadInterruptHandlerS
  cases h : threadInterruptHandler g tid <;> simp

/-- C2 counterexample: in gLockFree the interrupted thread's binding slot is
empty, the registry is non-empty and holds an instance created by that thread
with its interrupt handler set, yet — because the registry lock word is 0 —
the dispatcher does not scan and the interrupt is dropped, contradicting
"scans the registry if and only if the registry is non-empty". -/
theorem C2_no_scan_when_unlocked :
    gLockFree.tlsRuntimeState 7 = none ∧
    gLockFree.runtimeStateList ≠ [] ∧
    (gLockFree.heap 0).threadId = 7 ∧
    (gLockFree.heap 0).handler = some 5 ∧
    gLockFree.runtimesLock = 0 ∧
    threadInterruptHandler gLockFree 7 = none := by
  refine ⟨rfl, by decide, rfl, rfl, rfl, rfl⟩

/-- C2 (amended): when the interrupted thread's binding slot is empty, the
dispatcher scans the registry if and only if the registry lock word is
non-zero (some thread currently holds the spinlock) — not if and only if the
registry is non-empty — without acquiring the lock; it compares each entry's
creating-thread id to the interrupted thread's id, takes the first match,
and invokes the per-instance handler exactly when a match was found and its
handler is set; otherwise the interrupt has no effect. -/
theorem C2_dispatch_scan_condition (g : Global) (tid : Nat)
    (hempty : g.tlsRuntimeState tid = none) :
    threadInterruptHandler g tid
      = (if g.runtimesLock ≠ 0 then
          match g.runtimeStateList.find?
              (fun sid => (g.heap sid).threadId == tid) with
          | some sid =>
              match (g.heap sid).handler with
              | some h => some (h, sid)
              | none => none
          | none => none
        else none) := by
  unfold threadInterruptHandler
  rw [hempty]
  by_cases hl : g.runtimesLock ≠ 0
  · simp [hl, findByThreadId_eq_find]
  · simp [hl]

/-- C2 witness: in gLockHeld (same state but with the lock word 1) the
dispatcher does scan, finds instance 0 by thread id 7, and invokes its
handler 5. -/
theorem C2_dispatch_witness :
    threadInterruptHandler gLockHeld 7
      = (if gLockHeld.runtimesLock ≠ 0 then
          match gLockHeld.runtimeStateList.find?
              (fun sid => (gLockHeld.heap sid).threadId == 7) with
          | some sid =>
              match (gLockHeld.heap sid).handler with
              | some h => some (h, sid)
              | none => none
          | none => none
        else none) ∧
    threadInterruptHandler gLockHeld 7 = some (5, 0) :=
  ⟨C2_dispatch_scan_condition gLockHeld 7 rfl, by decide⟩

/-- C3 counterexample: from the process-start state with one registered
callback, a creation's event trace inserts the instance into the registry
strictly before INIT_GLOBALS fires and before INIT_THREAD_LOCAL_GLOBALS
fires, contradicting "only after all of that is the instance inserted". -/
theorem C3_insert_before_phases :
    ((initRuntime gChain 0 true).2.events.findIdx
        (fun e => e == Ev.insertRegistry 0)
      < (initRuntime gChain 0 true).2.events.findIdx
        (fun e => e == Ev.callbackRun 9 INIT_GLOBALS)) ∧
    ((initRuntime gChain 0 true).2.events.findIdx
        (fun e => e == Ev.insertRegistry 0)
      < (initRuntime gChain 0 true).2.events.findIdx
        (fun e => e == Ev.callbackRun 9 INIT_THREAD_LOCAL_GLOBALS)) ∧
    Ev.insertRegistry 0 ∈ (initRuntime gChain 0 true).2.events ∧
    Ev.callbackRun 9 INIT_GLOBALS ∈ (initRuntime gChain 0 true).2.events ∧
    Ev.callbackRun 9 INIT_THREAD_LOCAL_GLOBALS
      ∈ (initRuntime gChain 0 true).2.events := by
  refine ⟨by decide, by decide, by decide, by decide, by decide⟩

/-- C3 (amended): during Create the steps occur in this order — terminate
handler, allocation, creating-thread-id capture, handler clear, memory init,
atomic increment, then registry insertion under the lock, then (exactly when
the increment made the count 1) dispatcher install, main marking, console
setup and INIT_GLOBALS, and finally the unconditional
INIT_THREAD_LOCAL_GLOBALS: the registry insertion happens immediately after
the increment, before the first-runtime block and the thread-local phase,
not after them. -/
theorem C3_create_step_order (g : Global) (tid : Nat) :
    (initRuntime g tid true).2.events = g.events ++ initEvList g tid :=
  initRuntime_events g tid

/-- C4 counterexample: on a thread that is already attached (gAttached,
thread 0 bound to instance 0), a second attachOrCreateOnThisThread call
returns normally and changes nothing — it is not fatal. -/
theorem C4_not_fatal :
    (gAttached.tlsRuntimeState 0).isSome = true ∧
    Kotlin_initRuntimeIfNeeded gAttached 0 true = Except.ok gAttached := by
  exact ⟨by decide, rfl⟩

/-- C4 (amended): calling attachOrCreateOnThisThread
(Kotlin_initRuntimeIfNeeded) when the calling thread already has a bound
instance is a silent no-op: the whole body is guarded by the emptiness of the
TLS slot, so the call succeeds and returns the state unchanged; it does not
trigger the process-terminating check. -/
theorem C4_second_attach_noop (g : Global) (tid : Nat) (allocOk : Bool)
    (h : (g.tlsRuntimeState tid).isSome = true) :
    Kotlin_initRuntimeIfNeeded g tid allocOk = Except.ok g := by
  unfold Kotlin_initRuntimeIfNeeded
  cases hm : g.tlsRuntimeState tid with
  | none => rw [hm] at h; simp at h
  | some id => rfl

/-- C4 witness: the amended no-op behaviour at the concrete attached state. -/
theorem C4_second_attach_witness :
    Kotlin_initRuntimeIfNeeded gAttached 0 true = Except.ok gAttached :=
  C4_second_attach_noop gAttached 0 true (by decide)

/-- C5: on a thread whose bound instance is RUNNING, suspendCurrentThread
immediately followed by resumeOnCurrentThread on the returned handle is a
round trip: it succeeds, returns the same instance, the binding slot points
at that same instance again, and its status is RUNNING again. -/
theorem C5_suspend_resume_roundtrip (g : Global) (tid id : Nat)
    (hb : g.tlsRuntimeState tid = some id)
    (hs : (g.heap id).executionStatus = RUNNING) :
    roundTripView g tid = Except.ok (id, some id, RUNNING) := by
  unfold roundTripView suspendThenResume Kotlin_suspendRuntime
    Kotlin_resumeRuntime updateStatusIf
  rw [hb]
  simp [hs]
  simp [Except.map]

/-- C5 witness: the round trip at the concrete attached state (thread 0,
instance 0, RUNNING). -/
theorem C5_roundtrip_witness :
    roundTripView gAttached 0 = Except.ok (0, some 0, RUNNING) :=
  C5_suspend_resume_roundtrip gAttached 0 0 (by decide) (by decide)

lemma initIfNeeded_heap_pres (g : Global) (tid : Nat) (allocOk : Bool)
    (g2 : Global)
    (hok : Kotlin_initRuntimeIfNeeded g tid allocOk = Except.ok g2)
    (i : Nat) (hi : i < g.nextId) : g2.heap i = g.heap i := by
  have hne : i ≠ g.nextId := Nat.ne_of_lt hi
  unfold Kotlin_initRuntimeIfNeeded at hok
  cases hm : g.tlsRuntimeState tid with
  | some j =>
      rw [hm] at hok
      simp at hok
      rw [← hok]
  | none =>
      rw [hm] at hok
      cases allocOk with
      | false =>
          rw [show initRuntime g tid false
              = (none, (initRuntime g tid false).2) from rfl] at hok
          simp at hok
      | true =>
          cases hI : initRuntime g tid true with
          | mk r gI =>
              have hr : r = some g.nextId := by
                rw [← initRuntime_fst g tid, hI]
              have hg : gI.heap i = g.heap i := by
                rw [← initRuntime_heap_other g tid true i hne, hI]
              subst hr
              rw [hI] at hok
              simp only [updateStatusIf] at hok
              by_cases hc : (gI.heap g.nextId).executionStatus = SUSPENDED
              · rw [if_pos hc] at hok
                simp at hok
                rw [← hok]
                simp [hne, hg]
              · rw [if_neg hc] at hok
                simp at hok

lemma destroy_heap_pres (g : Global) (target : Nat) (g2 : Global)
    (hok : Kotlin_destroyRuntime g target = Except.ok g2)
    (i : Nat) (hne : (g.heap i).executionStatus ≠ SUSPENDED) :
    g2.heap i = g.heap i := by
  unfold Kotlin_destroyRuntime updateStatusIf at hok
  by_cases hc : (g.heap target).executionStatus = SUSPENDED
  · have hit : i ≠ target := by
      intro h
      rw [h] at hne
      exact hne hc
    rw [if_pos hc] at hok
    simp at hok
    rw [← hok, deinitRuntime_heap]
    simp [hit]
  · rw [if_neg hc] at hok
    simp at hok

lemma suspend_heap_pres (g : Global) (tid : Nat) (g2 : Global)
    (hok : (Kotlin_suspendRuntime g tid).map Prod.snd = Except.ok g2)
    (i : Nat) (hne : (g.heap i).executionStatus ≠ RUNNING) :
    g2.heap i = g.heap i := by
  unfold Kotlin_suspendRuntime updateStatusIf at hok
  cases hm : g.tlsRuntimeState tid with
  | none =>
      rw [hm] at hok
      simp [Except.map] at hok
  | some j =>
      rw [hm] at hok
      dsimp only at hok
      by_cases hc : (g.heap j).executionStatus = RUNNING
      · have hij : i ≠ j := by
          intro h
          rw [h] at hne
          exact hne hc
        rw [if_pos hc] at hok
        simp [Except.map] at hok
        rw [← hok]
        simp [hij]
      · rw [if_neg hc] at hok
        simp [Except.map] at hok

lemma resume_heap_pres (g : Global) (tid target : Nat) (g2 : Global)
    (hok : Kotlin_resumeRuntime g tid target = Except.ok g2)
    (i : Nat) (hne : (g.heap i).executionStatus ≠ SUSPENDED) :
    g2.heap i = g.heap i := by
  unfold Kotlin_resumeRuntime updateStatusIf at hok
  cases hm : g.tlsRuntimeState tid with
  | some j =>
      rw [hm] at hok
      simp at hok
  | none =>
      rw [hm] at hok
      dsimp only at hok
      by_cases hc : (g.heap target).executionStatus = SUSPENDED
      · have hit : i ≠ target := by
          intro h
          rw [h] at hne
          exact hne hc
        rw [if_pos hc] at hok
        simp at hok
        rw [← hok]
        simp [hit]
      · rw [if_neg hc] at hok
        simp at hok

lemma deinitIfNeeded_heap_pres (g : Global) (tid : Nat) (g2 : Global)
    (hok : Kotlin_deinitRuntimeIfNeeded g tid = Except.ok g2)
    (i : Nat) (hne : (g.heap i).executionStatus ≠ RUNNING) :
    g2.heap i = g.heap i := by
  unfold Kotlin_deinitRuntimeIfNeeded updateStatusIf at hok
  cases hm : g.tlsRuntimeState tid with
  | none =>
      rw [hm] at hok
      simp at hok
      rw [← hok]
  | some j =>
      rw [hm] at hok
      dsimp only at hok
      by_cases hc : (g.heap j).executionStatus = RUNNING
      · have hij : i ≠ j := by
          intro h
          rw [h] at hne
          exact hne hc
        rw [if_pos hc] at hok
        simp at hok
        rw [← hok]
        simp [deinitRuntime_heap, hij]
      · rw [if_neg hc] at hok
        simp at hok

/-- C8: DESTROYING is terminal — no core operation (attach, implicit detach,
detached create, explicit destroy, suspend, resume) that completes without
tripping a fatal check ever changes the status of an instance that is
DESTROYING: every transition is a compare-and-exchange expecting SUSPENDED or
RUNNING, never DESTROYING. -/
theorem C8_destroying_terminal (g : Global) (op : CoreOp) (id : Nat)
    (g2 : Global)
    (hd : (g.heap id).executionStatus = DESTROYING)
    (hid : id < g.nextId)
    (hok : runOp g op = Except.ok g2) :
    (g2.heap id).executionStatus = DESTROYING := by
  have hneS : (g.heap id).executionStatus ≠ SUSPENDED := by
    rw [hd]
    decide
  have hneR : (g.heap id).executionStatus ≠ RUNNING := by
    rw [hd]
    decide
  cases op with
  | initIfNeeded tid allocOk =>
      rw [initIfNeeded_heap_pres g tid allocOk g2 hok id hid]
      exact hd
  | deinitIfNeeded tid =>
      rw [deinitIfNeeded_heap_pres g tid g2 hok id hneR]
      exact hd
  | create tid allocOk =>
      have h2 : Except.ok ((Kotlin_createRuntime g tid allocOk).2)
          = Except.ok g2 := hok
      injection h2 with h2
      rw [← h2]
      rw [show Kotlin_createRuntime g tid allocOk
          = initRuntime g tid allocOk from rfl]
      rw [initRuntime_heap_other g tid allocOk id (Nat.ne_of_lt hid)]
      exact hd
  | destroy target =>
      rw [destroy_heap_pres g target g2 hok id hneS]
      exact hd
  | suspendOp tid =>
      rw [suspend_heap_pres g tid g2 hok id hneR]
      exact hd
  | resumeOp tid target =>
      rw [resume_heap_pres g tid target g2 hok id hneS]
      exact hd

/-- C8 witness: from a state with instance 0 DESTROYING, a detached creation
on thread 5 completes successfully and instance 0 is still DESTROYING. -/
theorem C8_destroying_witness :
    (gDestroyed.heap 0).executionStatus = DESTROYING ∧
    0 < gDestroyed.nextId ∧
    runOp gDestroyed (CoreOp.create 5 true) = Except.ok gDestroyedAfter ∧
    (gDestroyedAfter.heap 0).executionStatus = DESTROYING :=
  ⟨by decide, by decide, by rfl,
    C8_destroying_terminal gDestroyed (CoreOp.create 5 true) 0
      gDestroyedAfter (by decide) (by decide) (by rfl)⟩

/-- C1 (amended): for every interleaved sequence of creations and
destructions starting from alive-count 0 with one registered callback, the
INIT_GLOBALS phase runs exactly once per creation whose atomic increment
brings the alive count from 0 to 1 (so it can run more than once when the
count returns to 0 and rises again), the DEINIT_GLOBALS phase exactly once
per destruction whose decrement brings the count from 1 to 0, and the
thread-local phases on every creation and destruction unconditionally. -/
theorem C1_phase_count_per_transition (g : Global) (cb : Nat)
    (ops : List RtOp) (hchain : g.initChain = [cb])
    (halive : g.aliveRuntimesCount = 0) :
    phaseFireCount (runTrace g ops).events cb INIT_GLOBALS
        = phaseFireCount g.events cb INIT_GLOBALS + zeroToOneCount 0 ops ∧
    phaseFireCount (runTrace g ops).events cb DEINIT_GLOBALS
        = phaseFireCount g.events cb DEINIT_GLOBALS + oneToZeroCount 0 ops ∧
    phaseFireCount (runTrace g ops).events cb INIT_THREAD_LOCAL_GLOBALS
        = phaseFireCount g.events cb INIT_THREAD_LOCAL_GLOBALS
          + ops.countP isCreateOp ∧
    phaseFireCount (runTrace g ops).events cb DEINIT_THREAD_LOCAL_GLOBALS
        = phaseFireCount g.events cb DEINIT_THREAD_LOCAL_GLOBALS
          + ops.countP (fun op => !isCreateOp op) := by
  have h := runTrace_counts ops g cb hchain
  rw [halive] at h
  exact h

/-- C1 witness: the amended count law at the concrete run create, destroy,
create from the process-start state with callback 9 registered. -/
theorem C1_phase_count_witness :
    phaseFireCount
        (runTrace gChain [RtOp.create 0, RtOp.destroy 0, RtOp.create 1]).events
        9 INIT_GLOBALS
      = phaseFireCount gChain.events 9 INIT_GLOBALS
        + zeroToOneCount 0 [RtOp.create 0, RtOp.destroy 0, RtOp.create 1] ∧
    phaseFireCount
        (runTrace gChain [RtOp.create 0, RtOp.destroy 0, RtOp.create 1]).events
        9 DEINIT_GLOBALS
      = phaseFireCount gChain.events 9 DEINIT_GLOBALS
        + oneToZeroCount 0 [RtOp.create 0, RtOp.destroy 0, RtOp.create 1] ∧
    phaseFireCount
        (runTrace gChain [RtOp.create 0, RtOp.destroy 0, RtOp.create 1]).events
        9 INIT_THREAD_LOCAL_GLOBALS
      = phaseFireCount gChain.events 9 INIT_THREAD_LOCAL_GLOBALS
        + [RtOp.create 0, RtOp.destroy 0, RtOp.create 1].countP isCreateOp ∧
    phaseFireCount
        (runTrace gChain [RtOp.create 0, RtOp.destroy 0, RtOp.create 1]).events
        9 DEINIT_THREAD_LOCAL_GLOBALS
      = phaseFireCount gChain.events 9 DEINIT_THREAD_LOCAL_GLOBALS
        + [RtOp.create 0, RtOp.destroy 0,
            RtOp.create 1].countP (fun op => !isCreateOp op) :=
  C1_phase_count_per_transition gChain 9
    [RtOp.create 0, RtOp.destroy 0, RtOp.create 1] rfl rfl

/-- C1 counterexample: in the run create, destroy, create — an interleaved
sequence of creations and destructions — INIT_GLOBALS runs twice (once per
0-to-1 transition of the alive count) and DEINIT_GLOBALS once, so
INIT_GLOBALS does not run exactly once across every whole run as claimed. -/
theorem C1_init_globals_twice :
    phaseFireCount
        (runTrace gChain [RtOp.create 0, RtOp.destroy 0, RtOp.create 1]).events
        9 INIT_GLOBALS = 2 ∧
    phaseFireCount
        (runTrace gChain [RtOp.create 0, RtOp.destroy 0, RtOp.create 1]).events
        9 DEINIT_GLOBALS = 1 := by
  exact ⟨by decide, by decide⟩
